import Mathlib

/-!
Shallow embedding of the `oci_autonomous_data_warehouse` Ansible module
(`src/library/oci_autonomous_data_warehouse.py`).

The module maps a requested desired state (`present | absent | restore |
start | stop`) onto lifecycle operations of a remote Autonomous Data
Warehouse resource.  Remote interaction is embedded as an explicit trace of
issued calls (`Call`) together with a `World` record providing the outcomes
of the remote operations (the observed snapshot from `get`, the outcome of
the single mutating call, and the outcome of the subsequent wait).

Shared helper functions from `ansible.module_utils.oracle` (`oci_utils`,
`oci_db_utils`) belong to this repository but are not under `src/`; each of
them is modelled from the spec and carries a doc comment saying so.
-/

namespace OciAdw

/-- The last-observed attributes of the remote resource, as returned by a
`get` call (the Python module converts it with `to_dict`). -/
structure Snapshot where
  id : String
  lifecycle_state : String
  attrs : List (String × String)
  deriving Repr, DecidableEq

/-- Module parameters (`module.params`).  Python stores every declared
parameter, possibly with value `None`; an absent or `None` parameter is
`none` here.  Values are kept as strings, since the reconciliation logic
never inspects them. -/
def ParamMap : Type := List (String × String)

/-- `module.params.get(k)`. -/
def ParamMap.get (p : ParamMap) (k : String) : Option String :=
  List.lookup k p

/-- Python truthiness of an optional string (`if autonomous_data_warehouse_id:`):
`None` and the empty string are falsy. -/
def pyTruthy : Option String → Bool
  | none => false
  | some s => !(s == "")

/-- One remote call issued by the module, recorded in order.  A `wait`
entry records the acceptable terminal lifecycle states handed to the wait
helper. -/
inductive Call where
  | get (adw_id : Option String)
  | create (details : List (String × Option String))
  | update (adw_id : Option String) (payload : List (String × String))
  | delete (adw_id : Option String)
  | restore (adw_id : Option String) (details : List (String × Option String))
  | start (adw_id : Option String)
  | stop (adw_id : Option String)
  | wait (states : List String)
  deriving Repr, DecidableEq

/-- A call is mutating when it changes remote state: create, update,
delete, restore, start, stop.  `get` and the polling wait are read-only. -/
def Call.isMutating : Call → Bool
  | .get _ => false
  | .wait _ => false
  | _ => true

/-- Recognize a `get` trace entry. -/
def Call.isGet : Call → Bool
  | .get _ => true
  | _ => false

/-- Recognize a `wait` trace entry. -/
def Call.isWait : Call → Bool
  | .wait _ => true
  | _ => false

/-- Errors that can abort a reconciliation.
`serviceError` is an `oci.exceptions.ServiceError` (remote control plane
fault), `clientError` an `oci.exceptions.ClientError` (client/transport
level fault), `typeError` a Python `TypeError` (e.g. concatenating `str`
with `None`), `maxWaitError` the wait helper's timeout, `waitStateError`
the wait helper observing a state outside the acceptable set, and
`failJson` a structured `module.fail_json(msg=...)` exit. -/
inductive Err where
  | serviceError (msg : String)
  | clientError (msg : String)
  | typeError
  | maxWaitError
  | waitStateError (st : String)
  | failJson (msg : String)
  deriving Repr, DecidableEq

/-- The message text the caller can observe for an error. -/
def Err.message : Err → String
  | .serviceError m => m
  | .clientError m => m
  | .failJson m => m
  | .typeError => "TypeError"
  | .maxWaitError => "Maximum wait time exceeded"
  | .waitStateError st => st

/-- The message of a collaborator fault (a remote service fault or a
transport/client fault); `none` for anything that is not such a fault. -/
def collabFaultMessage : Err → Option String
  | .serviceError m => some m
  | .clientError m => some m
  | _ => none

/-- The message of a structured error surfaced to the caller; `none` for an
unstructured failure such as a raw `TypeError`. -/
def Err.structuredMessage : Err → Option String
  | .serviceError m => some m
  | .clientError m => some m
  | .failJson m => some m
  | _ => none

/-- `small` occurs as a substring of `big`. -/
def containsStr (big small : String) : Prop :=
  ∃ pre post, big.data = pre ++ small.data ++ post

/-- Outcomes of the remote operations for one reconciliation run: what the
(single) `get` returns (`none` inside `.ok` means NotFound), whether the
(single) mutating call is acknowledged or faults, what snapshot the wait
helper finally observes (or how it fails), and the default terminal states
used by the create/update/delete wait helpers. -/
structure World where
  getOutcome : Except Err (Option Snapshot)
  mutateOutcome : Except Err Unit
  waitOutcome : Except Err Snapshot
  defaultWaitStates : List String

/-- The value returned by the module on success (`module.exit_json`):
`changed` plus the resource snapshot, when one is reported. -/
structure ModuleResult where
  changed : Bool
  autonomous_data_warehouse : Option Snapshot
  deriving Repr, DecidableEq

/-- A run's outcome together with the ordered trace of issued calls. -/
abbrev RunResult := Except Err ModuleResult × List Call

/-- Modelled from the spec: `oci_db_utils.execute_function_and_wait` is not
under `src/`.  Per the spec's Wait Helper contract, it issues the given
mutating call and, once acknowledged, polls until the resource reaches one
of the acceptable terminal states (failing on a state outside the set or on
timeout), returning the resulting snapshot with `changed=true`; faults are
propagated, never swallowed. -/
def execute_function_and_wait (w : World) (call : Call) (states : List String) :
    RunResult :=
  match w.mutateOutcome with
  | .error f => (.error f, [call])
  | .ok _ =>
    match w.waitOutcome with
    | .error f => (.error f, [call, .wait states])
    | .ok snap =>
      if states.contains snap.lifecycle_state then
        (.ok { changed := true, autonomous_data_warehouse := some snap },
         [call, .wait states])
      else
        (.error (.waitStateError snap.lifecycle_state), [call, .wait states])

/-- Modelled from the spec: `oci_utils.get_existing_resource` is not under
`src/`.  Per the spec's Resource Client interface it performs
`get(ref) -> ResourceSnapshot | NotFound`, with faults propagated. -/
def get_existing_resource (w : World) (adw_id : Option String) :
    Except Err (Option Snapshot) × List Call :=
  (w.getOutcome, [Call.get adw_id])

/-- `perform_start_or_stop` (src lines 402-436): picks the idempotent
lifecycle-state set, the target terminal-state set and the lifecycle call
from the requested state; if the observed lifecycle state is not in the
idempotent set it invokes the call and waits, otherwise it reports
`changed=false` with the current snapshot.  When the state is neither
`start` nor `stop`, `lifecycle_func` stays `None` and invoking it raises a
`TypeError` (unreachable from `main`, whose argument spec restricts the
choices). -/
def perform_start_or_stop (w : World) (adw : Snapshot)
    (adw_id : Option String) (p : ParamMap) : RunResult :=
  let state := ParamMap.get p "state"
  let idempotent_lifecycle_state : List String :=
    if state = some "start" then ["AVAILABLE", "STARTING"]
    else if state = some "stop" then ["STOPPED", "STOPPING"]
    else []
  let target_state : List String :=
    if state = some "start" then ["AVAILABLE"]
    else if state = some "stop" then ["STOPPED"]
    else []
  if !(idempotent_lifecycle_state.contains adw.lifecycle_state) then
    if state = some "start" then
      execute_function_and_wait w (Call.start adw_id) target_state
    else if state = some "stop" then
      execute_function_and_wait w (Call.stop adw_id) target_state
    else
      (.error .typeError, [])
  else
    (.ok { changed := false, autonomous_data_warehouse := some adw }, [])

/-- `start_or_stop_autonomous_data_warehouse` (src lines 380-399): gets the
existing resource; when it is not found it raises
`ClientError("No Autonomous Data Warehouse with id " + id + " is found for update")`
— with `id = None` that string concatenation is itself a Python
`TypeError`; otherwise it delegates to `perform_start_or_stop`. -/
def start_or_stop_autonomous_data_warehouse (w : World) (p : ParamMap) :
    RunResult :=
  let adw_id := ParamMap.get p "autonomous_data_warehouse_id"
  match get_existing_resource w adw_id with
  | (.error f, tr) => (.error f, tr)
  | (.ok none, tr) =>
    match adw_id with
    | some s =>
      (.error (.clientError
        ("No Autonomous Data Warehouse with id " ++ s ++ " is found for update")),
       tr)
    | none => (.error .typeError, tr)
  | (.ok (some adw), tr) =>
    let r := perform_start_or_stop w adw adw_id p
    (r.1, tr ++ r.2)

/-- The dynamic attribute-copy loop used by the module
(`for attribute in details.attribute_map: details.__setattr__(attribute,
module.params.get(attribute))`): every schema attribute is set to the
caller's parameter value, `none` when the caller left it unset. -/
def copy_details (attribute_map : List String) (p : ParamMap) :
    List (String × Option String) :=
  attribute_map.map (fun a => (a, ParamMap.get p a))

/-- The attribute map of the external SDK's
`RestoreAutonomousDataWarehouseDetails` model: its only attribute is the
point-in-time to restore to (the spec's `params.timestamp`). -/
def restore_attribute_map : List String := ["timestamp"]

/-- `restore_autonomous_data_warehouse` (src lines 354-377): builds the
restore details from the parameters (the timestamp) and unconditionally
calls `execute_function_and_wait` on the restore operation with acceptable
terminal states `["AVAILABLE", "FAILED"]`. -/
def restore_autonomous_data_warehouse (w : World) (p : ParamMap) : RunResult :=
  let adw_id := ParamMap.get p "autonomous_data_warehouse_id"
  let details := copy_details restore_attribute_map p
  execute_function_and_wait w (Call.restore adw_id details) ["AVAILABLE", "FAILED"]

/-- Modelled from the spec: `oci_utils.create_and_wait` is not under
`src/`.  It issues the create call with the given details and waits for a
terminal state, returning the resulting snapshot with `changed=true`;
faults propagate. -/
def create_and_wait (w : World) (details : List (String × Option String)) :
    RunResult :=
  execute_function_and_wait w (Call.create details) w.defaultWaitStates

/-- `create_autonomous_data_warehouse` (src lines 290-308): copies every
attribute of the creation schema from the module parameters onto the
creation details, then creates and waits. -/
def create_autonomous_data_warehouse (w : World)
    (create_attribute_map : List String) (p : ParamMap) : RunResult :=
  let create_autonomous_data_warehouse_details :=
    copy_details create_attribute_map p
  create_and_wait w create_autonomous_data_warehouse_details

/-- Modelled from the spec: `oci_utils.check_and_create_resource` is not
under `src/`.  The spec's decision table maps desired=Present with no
existing ref to a single Create action using the caller's params as
creation attributes, performed via the supplied create function. -/
def check_and_create_resource (w : World)
    (create_attribute_map : List String) (p : ParamMap) : RunResult :=
  create_autonomous_data_warehouse w create_attribute_map p

/-- The update payload: the update-schema attributes the caller explicitly
supplied, each paired with its supplied value. -/
def explicitPayload (update_attributes : List String) (p : ParamMap) :
    List (String × String) :=
  update_attributes.filterMap (fun a => (ParamMap.get p a).map (fun v => (a, v)))

/-- Modelled from the spec: `oci_utils.check_and_update_resource` is not
under `src/`.  It gets the current snapshot and issues one Update whose
payload holds exactly the update-schema attributes the caller explicitly
supplied (attributes left unset are never sent), then waits; faults
propagate. -/
def check_and_update_resource (w : World) (adw_id : Option String)
    (update_attributes : List String) (p : ParamMap) : RunResult :=
  match w.getOutcome with
  | .error f => (.error f, [Call.get adw_id])
  | .ok _ =>
    let r := execute_function_and_wait w
      (Call.update adw_id (explicitPayload update_attributes p))
      w.defaultWaitStates
    (r.1, Call.get adw_id :: r.2)

/-- `update_autonomous_data_warehouse` (src lines 311-329): delegates to
`check_and_update_resource` with the update schema's attribute map. -/
def update_autonomous_data_warehouse (w : World)
    (update_attribute_map : List String) (p : ParamMap) : RunResult :=
  check_and_update_resource w (ParamMap.get p "autonomous_data_warehouse_id")
    update_attribute_map p

/-- The `try/except` of `create_or_update_autonomous_data_warehouse`
(src lines 263-285): a `ServiceError` is turned into
`module.fail_json(msg=ex.message)` and a `ClientError` into
`module.fail_json(msg=str(ex))`; anything else propagates. -/
def wrapPresentErrors : Except Err ModuleResult → Except Err ModuleResult
  | .error (.serviceError m) => .error (.failJson m)
  | .error (.clientError m) => .error (.failJson m)
  | r => r

/-- `create_or_update_autonomous_data_warehouse` (src lines 260-287):
updates when `autonomous_data_warehouse_id` is (truthy) present, otherwise
checks-and-creates; `ServiceError`/`ClientError` are caught and reported
via `fail_json` with the fault's message. -/
def create_or_update_autonomous_data_warehouse (w : World)
    (create_attribute_map update_attribute_map : List String)
    (p : ParamMap) : RunResult :=
  let r :=
    if pyTruthy (ParamMap.get p "autonomous_data_warehouse_id") then
      update_autonomous_data_warehouse w update_attribute_map p
    else
      check_and_create_resource w create_attribute_map p
  (wrapPresentErrors r.1, r.2)

/-- Modelled from the spec: `oci_utils.delete_and_wait` is not under
`src/`.  The spec's decision table maps desired=Absent with no existing ref
to a no-op with `changed=false` and zero remote calls; with a ref it gets
the resource, issues the Delete and waits; faults propagate. -/
def delete_and_wait (w : World) (adw_id : Option String) : RunResult :=
  match adw_id with
  | none => (.ok { changed := false, autonomous_data_warehouse := none }, [])
  | some _ =>
    match w.getOutcome with
    | .error f => (.error f, [Call.get adw_id])
    | .ok _ =>
      let r := execute_function_and_wait w (Call.delete adw_id)
        w.defaultWaitStates
      (r.1, Call.get adw_id :: r.2)

/-- `delete_autonomous_data_warehouse` (src lines 332-351): delegates to
`delete_and_wait` on the supplied identifier. -/
def delete_autonomous_data_warehouse (w : World) (p : ParamMap) : RunResult :=
  delete_and_wait w (ParamMap.get p "autonomous_data_warehouse_id")

/-- The dispatch of `main` (src lines 491-502): `present` goes to
create-or-update, `absent` to delete, `restore` to restore, and everything
else (the argument spec leaves only `start` and `stop`) to start-or-stop. -/
def oci_module_run (w : World)
    (create_attribute_map update_attribute_map : List String)
    (p : ParamMap) : RunResult :=
  let state := ParamMap.get p "state"
  if state = some "present" then
    create_or_update_autonomous_data_warehouse w create_attribute_map
      update_attribute_map p
  else if state = some "absent" then
    delete_autonomous_data_warehouse w p
  else if state = some "restore" then
    restore_autonomous_data_warehouse w p
  else
    start_or_stop_autonomous_data_warehouse w p

/-! ## Theorems about the start/stop reconciliation path -/

/-- C1: for every reconciliation with desired state Start on an existing
resource whose observed lifecycle state is AVAILABLE or STARTING, no remote
mutating call is issued, the result has changed=false, and the returned
snapshot equals the snapshot observed by the preceding get. -/
theorem C1_start_idempotent_noop (w : World) (p : ParamMap) (adw : Snapshot)
    (hst : ParamMap.get p "state" = some "start")
    (hget : w.getOutcome = .ok (some adw))
    (hls : adw.lifecycle_state ∈ (["AVAILABLE", "STARTING"] : List String)) :
    start_or_stop_autonomous_data_warehouse w p =
      (.ok { changed := false, autonomous_data_warehouse := some adw },
       [Call.get (ParamMap.get p "autonomous_data_warehouse_id")]) ∧
    (start_or_stop_autonomous_data_warehouse w p).2.filter Call.isMutating = [] := by
  have hrun : start_or_stop_autonomous_data_warehouse w p =
      (.ok { changed := false, autonomous_data_warehouse := some adw },
       [Call.get (ParamMap.get p "autonomous_data_warehouse_id")]) := by
    simp only [start_or_stop_autonomous_data_warehouse, get_existing_resource, hget]
    simp only [perform_start_or_stop, hst]
    simp [hls]
  refine ⟨hrun, ?_⟩
  rw [hrun]
  simp [Call.isMutating]

def snapAvailable : Snapshot :=
  { id := "ocid1.adw.w1", lifecycle_state := "AVAILABLE", attrs := [] }

def worldC1 : World :=
  { getOutcome := .ok (some snapAvailable), mutateOutcome := .ok (),
    waitOutcome := .ok snapAvailable, defaultWaitStates := [] }

def paramsC1 : ParamMap :=
  [("state", "start"), ("autonomous_data_warehouse_id", "ocid1.adw.w1")]

/-- Witness for C1 at a concrete input. -/
theorem C1_start_idempotent_noop_witness :
    start_or_stop_autonomous_data_warehouse worldC1 paramsC1 =
      (.ok { changed := false, autonomous_data_warehouse := some snapAvailable },
       [Call.get (ParamMap.get paramsC1 "autonomous_data_warehouse_id")]) ∧
    (start_or_stop_autonomous_data_warehouse worldC1 paramsC1).2.filter
      Call.isMutating = [] :=
  C1_start_idempotent_noop worldC1 paramsC1 snapAvailable (by rfl) (by rfl)
    (by decide)

/-- C2: for desired state Stop on an existing resource, an observed state
in {STOPPED, STOPPING} gives a no-op with changed=false returning the
current snapshot; otherwise exactly one Stop call is issued followed by a
wait whose acceptable terminal state set is exactly {STOPPED}. -/
theorem C2_stop_reconciliation (w : World) (p : ParamMap) (adw : Snapshot)
    (hst : ParamMap.get p "state" = some "stop")
    (hget : w.getOutcome = .ok (some adw)) :
    (adw.lifecycle_state ∈ (["STOPPED", "STOPPING"] : List String) →
      start_or_stop_autonomous_data_warehouse w p =
        (.ok { changed := false, autonomous_data_warehouse := some adw },
         [Call.get (ParamMap.get p "autonomous_data_warehouse_id")])) ∧
    (adw.lifecycle_state ∉ (["STOPPED", "STOPPING"] : List String) →
      w.mutateOutcome = .ok () →
      (start_or_stop_autonomous_data_warehouse w p).2 =
        [Call.get (ParamMap.get p "autonomous_data_warehouse_id"),
         Call.stop (ParamMap.get p "autonomous_data_warehouse_id"),
         Call.wait ["STOPPED"]] ∧
      (start_or_stop_autonomous_data_warehouse w p).2.filter Call.isMutating =
        [Call.stop (ParamMap.get p "autonomous_data_warehouse_id")]) := by
  constructor
  · intro hls
    simp only [start_or_stop_autonomous_data_warehouse, get_existing_resource, hget]
    simp only [perform_start_or_stop, hst]
    simp [hls]
  · intro hls hm
    simp only [start_or_stop_autonomous_data_warehouse, get_existing_resource, hget]
    rcases hw : w.waitOutcome with f | snap
    · simp [perform_start_or_stop, hst, execute_function_and_wait, hm, hw, hls,
        Call.isMutating]
    · by_cases hsn : snap.lifecycle_state = "STOPPED" <;>
        simp [perform_start_or_stop, hst, execute_function_and_wait, hm, hw, hls,
          hsn, Call.isMutating]

def snapStopped : Snapshot :=
  { id := "ocid1.adw.w2", lifecycle_state := "AVAILABLE", attrs := [] }

def snapStoppedAfter : Snapshot :=
  { id := "ocid1.adw.w2", lifecycle_state := "STOPPED", attrs := [] }

def worldC2 : World :=
  { getOutcome := .ok (some snapStopped), mutateOutcome := .ok (),
    waitOutcome := .ok snapStoppedAfter,
    defaultWaitStates := [] }

def paramsC2 : ParamMap :=
  [("state", "stop"), ("autonomous_data_warehouse_id", "ocid1.adw.w2")]

/-- Witness for C2 at a concrete input (resource observed AVAILABLE, so the
mutating branch is exercised). -/
theorem C2_stop_reconciliation_witness :
    ((snapStopped.lifecycle_state ∈ (["STOPPED", "STOPPING"] : List String) →
      start_or_stop_autonomous_data_warehouse worldC2 paramsC2 =
        (.ok { changed := false, autonomous_data_warehouse := some snapStopped },
         [Call.get (ParamMap.get paramsC2 "autonomous_data_warehouse_id")])) ∧
    (snapStopped.lifecycle_state ∉ (["STOPPED", "STOPPING"] : List String) →
      worldC2.mutateOutcome = .ok () →
      (start_or_stop_autonomous_data_warehouse worldC2 paramsC2).2 =
        [Call.get (ParamMap.get paramsC2 "autonomous_data_warehouse_id"),
         Call.stop (ParamMap.get paramsC2 "autonomous_data_warehouse_id"),
         Call.wait ["STOPPED"]] ∧
      (start_or_stop_autonomous_data_warehouse worldC2 paramsC2).2.filter
        Call.isMutating =
        [Call.stop (ParamMap.get paramsC2 "autonomous_data_warehouse_id")])) :=
  C2_stop_reconciliation worldC2 paramsC2 snapStopped (by rfl) (by rfl)

/-- C3: for desired state Start on an existing resource whose observed
lifecycle state is neither AVAILABLE nor STARTING, exactly one Start call
is issued, followed by a wait whose acceptable terminal state set is
exactly {AVAILABLE}. -/
theorem C3_start_mutating_path (w : World) (p : ParamMap) (adw : Snapshot)
    (hst : ParamMap.get p "state" = some "start")
    (hget : w.getOutcome = .ok (some adw))
    (hls : adw.lifecycle_state ∉ (["AVAILABLE", "STARTING"] : List String))
    (hm : w.mutateOutcome = .ok ()) :
    (start_or_stop_autonomous_data_warehouse w p).2 =
      [Call.get (ParamMap.get p "autonomous_data_warehouse_id"),
       Call.start (ParamMap.get p "autonomous_data_warehouse_id"),
       Call.wait ["AVAILABLE"]] ∧
    (start_or_stop_autonomous_data_warehouse w p).2.filter Call.isMutating =
      [Call.start (ParamMap.get p "autonomous_data_warehouse_id")] := by
  simp only [start_or_stop_autonomous_data_warehouse, get_existing_resource, hget]
  rcases hw : w.waitOutcome with f | snap
  · simp [perform_start_or_stop, hst, execute_function_and_wait, hm, hw, hls,
      Call.isMutating]
  · by_cases hsn : snap.lifecycle_state = "AVAILABLE" <;>
      simp [perform_start_or_stop, hst, execute_function_and_wait, hm, hw, hls,
        hsn, Call.isMutating]

def snapC3Observed : Snapshot :=
  { id := "ocid1.adw.w3", lifecycle_state := "STOPPED", attrs := [] }

def snapC3After : Snapshot :=
  { id := "ocid1.adw.w3", lifecycle_state := "AVAILABLE", attrs := [] }

def worldC3 : World :=
  { getOutcome := .ok (some snapC3Observed), mutateOutcome := .ok (),
    waitOutcome := .ok snapC3After,
    defaultWaitStates := [] }

def paramsC3 : ParamMap :=
  [("state", "start"), ("autonomous_data_warehouse_id", "ocid1.adw.w3")]

/-- Witness for C3 at a concrete input (resource observed STOPPED). -/
theorem C3_start_mutating_path_witness :
    (start_or_stop_autonomous_data_warehouse worldC3 paramsC3).2 =
      [Call.get (ParamMap.get paramsC3 "autonomous_data_warehouse_id"),
       Call.start (ParamMap.get paramsC3 "autonomous_data_warehouse_id"),
       Call.wait ["AVAILABLE"]] ∧
    (start_or_stop_autonomous_data_warehouse worldC3 paramsC3).2.filter
      Call.isMutating =
      [Call.start (ParamMap.get paramsC3 "autonomous_data_warehouse_id")] :=
  C3_start_mutating_path worldC3 paramsC3 snapC3Observed
    (by rfl) (by rfl) (by decide) (by rfl)

/-! ## Not-found and missing-identifier behaviour of the start/stop path -/

theorem string_data_append (a b : String) : (a ++ b).data = a.data ++ b.data := by
  cases a
  cases b
  rfl

theorem containsStr_refl (s : String) : containsStr s s :=
  ⟨[], [], by simp⟩

/-- C10: for desired state start or stop with a supplied identifier whose
remote get reports NotFound, the module raises a client-level error whose
message contains the identifier, and issues no mutating call. -/
theorem C10_not_found_client_error (w : World) (p : ParamMap) (s : String)
    (hid : ParamMap.get p "autonomous_data_warehouse_id" = some s)
    (hget : w.getOutcome = .ok none) :
    start_or_stop_autonomous_data_warehouse w p =
      (.error (.clientError
        ("No Autonomous Data Warehouse with id " ++ s ++ " is found for update")),
       [Call.get (some s)]) ∧
    containsStr
      ("No Autonomous Data Warehouse with id " ++ s ++ " is found for update") s ∧
    (start_or_stop_autonomous_data_warehouse w p).2.filter Call.isMutating = [] := by
  have hrun : start_or_stop_autonomous_data_warehouse w p =
      (.error (.clientError
        ("No Autonomous Data Warehouse with id " ++ s ++ " is found for update")),
       [Call.get (some s)]) := by
    simp only [start_or_stop_autonomous_data_warehouse, get_existing_resource,
      hget, hid]
  refine ⟨hrun, ?_, ?_⟩
  · exact ⟨("No Autonomous Data Warehouse with id ").data,
      (" is found for update").data,
      by simp [string_data_append, List.append_assoc]⟩
  · rw [hrun]
    rfl

def worldNotFound : World :=
  { getOutcome := .ok none, mutateOutcome := .ok (),
    waitOutcome := .ok snapAvailable, defaultWaitStates := [] }

def paramsC10 : ParamMap :=
  [("state", "start"), ("autonomous_data_warehouse_id", "ocid1.adw.gone")]

/-- Witness for C10 at a concrete input. -/
theorem C10_not_found_client_error_witness :
    start_or_stop_autonomous_data_warehouse worldNotFound paramsC10 =
      (.error (.clientError
        ("No Autonomous Data Warehouse with id " ++ "ocid1.adw.gone" ++
          " is found for update")),
       [Call.get (some "ocid1.adw.gone")]) ∧
    containsStr
      ("No Autonomous Data Warehouse with id " ++ "ocid1.adw.gone" ++
        " is found for update") "ocid1.adw.gone" ∧
    (start_or_stop_autonomous_data_warehouse worldNotFound paramsC10).2.filter
      Call.isMutating = [] :=
  C10_not_found_client_error worldNotFound paramsC10 "ocid1.adw.gone"
    (by rfl) (by rfl)

def paramsC4 : ParamMap := [("state", "start")]

/-- C4 counterexample: at the concrete input (desired state start, no
identifier supplied, remote get reporting no resource) the module does not
fail with a structured error reporting the missing ref: it fails with a raw
Python TypeError raised while concatenating the `None` identifier into the
not-found message, refuting the claim as stated. -/
theorem C4_counterexample :
    (start_or_stop_autonomous_data_warehouse worldNotFound paramsC4).1 =
      Except.error Err.typeError ∧
    ¬ ∃ e m, (start_or_stop_autonomous_data_warehouse worldNotFound paramsC4).1 =
        Except.error e ∧ Err.structuredMessage e = some m := by
  have hne : (start_or_stop_autonomous_data_warehouse worldNotFound paramsC4).1 =
      Except.error Err.typeError := rfl
  refine ⟨hne, ?_⟩
  rintro ⟨e, m, he, hm⟩
  rw [hne] at he
  injection he with h
  subst h
  simp [Err.structuredMessage] at hm

/-- C4 (amended): with desired state start or stop and no resource
identifier supplied, when the remote get reports no resource the module
fails before issuing any mutating remote call — but with an unstructured
Python TypeError raised while building the not-found message (string
concatenation with None), not with a structured precondition error
reporting the missing required ref. -/
theorem C4_missing_ref_fails_unstructured (w : World) (p : ParamMap)
    (hid : ParamMap.get p "autonomous_data_warehouse_id" = none)
    (hst : ParamMap.get p "state" = some "start" ∨
           ParamMap.get p "state" = some "stop")
    (hget : w.getOutcome = .ok none) :
    start_or_stop_autonomous_data_warehouse w p =
      (.error .typeError, [Call.get none]) ∧
    Err.structuredMessage .typeError = none ∧
    (start_or_stop_autonomous_data_warehouse w p).2.filter Call.isMutating = [] := by
  have hrun : start_or_stop_autonomous_data_warehouse w p =
      (.error .typeError, [Call.get none]) := by
    simp only [start_or_stop_autonomous_data_warehouse, get_existing_resource,
      hget, hid]
  refine ⟨hrun, rfl, ?_⟩
  rw [hrun]
  rfl

/-- Witness for the amended C4 at a concrete input. -/
theorem C4_missing_ref_fails_unstructured_witness :
    start_or_stop_autonomous_data_warehouse worldNotFound paramsC4 =
      (.error .typeError, [Call.get none]) ∧
    Err.structuredMessage .typeError = none ∧
    (start_or_stop_autonomous_data_warehouse worldNotFound paramsC4).2.filter
      Call.isMutating = [] :=
  C4_missing_ref_fails_unstructured worldNotFound paramsC4 (by rfl)
    (Or.inl (by rfl)) (by rfl)

/-! ## Restore and delete paths -/

/-- C6: for desired state Restore with an existing identifier, exactly one
Restore call is issued unconditionally (no prior get, no idempotence
check), carrying the identifier and the timestamp from the parameters,
followed by a wait whose acceptable terminal state set is exactly
{AVAILABLE, FAILED}; the snapshot observed by the wait is returned. -/
theorem C6_restore_exactly_once (w : World) (p : ParamMap) (rid : String)
    (snap : Snapshot)
    (hid : ParamMap.get p "autonomous_data_warehouse_id" = some rid)
    (hm : w.mutateOutcome = .ok ())
    (hw1 : w.waitOutcome = .ok snap)
    (hs : snap.lifecycle_state ∈ (["AVAILABLE", "FAILED"] : List String)) :
    restore_autonomous_data_warehouse w p =
      (.ok { changed := true, autonomous_data_warehouse := some snap },
       [Call.restore (some rid) [("timestamp", ParamMap.get p "timestamp")],
        Call.wait ["AVAILABLE", "FAILED"]]) ∧
    (restore_autonomous_data_warehouse w p).2.filter Call.isMutating =
      [Call.restore (some rid) [("timestamp", ParamMap.get p "timestamp")]] := by
  have hrun : restore_autonomous_data_warehouse w p =
      (.ok { changed := true, autonomous_data_warehouse := some snap },
       [Call.restore (some rid) [("timestamp", ParamMap.get p "timestamp")],
        Call.wait ["AVAILABLE", "FAILED"]]) := by
    simp [restore_autonomous_data_warehouse, copy_details, restore_attribute_map,
      execute_function_and_wait, hm, hw1, hid, hs]
  refine ⟨hrun, ?_⟩
  rw [hrun]
  rfl

def snapC6After : Snapshot :=
  { id := "x", lifecycle_state := "AVAILABLE", attrs := [] }

def worldC6 : World :=
  { getOutcome := .ok (some snapC6After), mutateOutcome := .ok (),
    waitOutcome := .ok snapC6After, defaultWaitStates := [] }

def paramsC6 : ParamMap :=
  [("state", "restore"), ("autonomous_data_warehouse_id", "x"),
   ("timestamp", "2018-03-23T00:59:07.032Z")]

/-- Witness for C6 at the spec's concrete scenario input. -/
theorem C6_restore_exactly_once_witness :
    restore_autonomous_data_warehouse worldC6 paramsC6 =
      (.ok { changed := true, autonomous_data_warehouse := some snapC6After },
       [Call.restore (some "x") [("timestamp", ParamMap.get paramsC6 "timestamp")],
        Call.wait ["AVAILABLE", "FAILED"]]) ∧
    (restore_autonomous_data_warehouse worldC6 paramsC6).2.filter
      Call.isMutating =
      [Call.restore (some "x")
        [("timestamp", ParamMap.get paramsC6 "timestamp")]] :=
  C6_restore_exactly_once worldC6 paramsC6 "x" snapC6After (by rfl) (by rfl)
    (by rfl) (by decide)

/-- C9: for desired state Absent with no existing identifier, the run
issues zero remote calls and reports changed=false. -/
theorem C9_absent_no_ref_noop (w : World) (cam uam : List String) (p : ParamMap)
    (hst : ParamMap.get p "state" = some "absent")
    (hid : ParamMap.get p "autonomous_data_warehouse_id" = none) :
    oci_module_run w cam uam p =
      (.ok { changed := false, autonomous_data_warehouse := none }, []) := by
  simp [oci_module_run, hst, delete_autonomous_data_warehouse, delete_and_wait,
    hid]

def paramsC9 : ParamMap := [("state", "absent")]

/-- Witness for C9 at a concrete input. -/
theorem C9_absent_no_ref_noop_witness :
    oci_module_run worldC1 [] [] paramsC9 =
      (.ok { changed := false, autonomous_data_warehouse := none }, []) :=
  C9_absent_no_ref_noop worldC1 [] [] paramsC9 (by rfl) (by rfl)

/-! ## Create and update payload contracts -/

/-- The attributes actually carried (with a value) by a creation/restore
details object: schema attributes the caller left unset are `none` on the
object and are not serialized into the request. -/
def sentAttrs (details : List (String × Option String)) :
    List (String × String) :=
  details.filterMap (fun av => av.2.map (fun v => (av.1, v)))

/-- C8: for desired state Present with no existing identifier, exactly one
Create action is issued, and the attributes carried by the creation request
are exactly the creation-schema attributes the caller supplied, each with
the caller's value. -/
theorem C8_create_sends_input_attributes (w : World) (cam uam : List String)
    (p : ParamMap)
    (hid : pyTruthy (ParamMap.get p "autonomous_data_warehouse_id") = false) :
    (create_or_update_autonomous_data_warehouse w cam uam p).2.filter
        Call.isMutating = [Call.create (copy_details cam p)] ∧
    (∀ a v, (a, v) ∈ sentAttrs (copy_details cam p) ↔
      a ∈ cam ∧ ParamMap.get p a = some v) := by
  constructor
  · rcases hm : w.mutateOutcome with f | u
    · simp [create_or_update_autonomous_data_warehouse, hid,
        check_and_create_resource, create_autonomous_data_warehouse,
        create_and_wait, execute_function_and_wait, hm, Call.isMutating]
    · rcases hw : w.waitOutcome with f | snap
      · simp [create_or_update_autonomous_data_warehouse, hid,
          check_and_create_resource, create_autonomous_data_warehouse,
          create_and_wait, execute_function_and_wait, hm, hw, Call.isMutating]
      · simp only [create_or_update_autonomous_data_warehouse, hid,
          check_and_create_resource, create_autonomous_data_warehouse,
          create_and_wait, execute_function_and_wait, hm, hw, Bool.false_eq_true,
          if_false]
        split <;> simp [Call.isMutating]
  · intro a v
    simp only [sentAttrs, copy_details, List.mem_filterMap, List.mem_map,
      Option.map_eq_some']
    constructor
    · rintro ⟨av, ⟨a2, ha2, rfl⟩, v2, hv2, hav⟩
      injection hav with h1 h2
      subst h1
      subst h2
      exact ⟨ha2, hv2⟩
    · rintro ⟨ha, hv⟩
      exact ⟨(a, ParamMap.get p a), ⟨a, ha, rfl⟩, v, hv, rfl⟩

def worldC8 : World :=
  { getOutcome := .ok none, mutateOutcome := .ok (),
    waitOutcome := .ok snapAvailable, defaultWaitStates := ["AVAILABLE"] }

def paramsC8 : ParamMap :=
  [("state", "present"), ("compartment_id", "ocid1.comp.c"),
   ("db_name", "autodb"), ("cpu_core_count", "2")]

def createSchemaC8 : List String :=
  ["compartment_id", "admin_password", "db_name", "cpu_core_count",
   "data_storage_size_in_tbs", "display_name", "license_model"]

/-- Witness for C8 at a concrete input: `admin_password` and the other
unset schema attributes carry no value in the creation request. -/
theorem C8_create_sends_input_attributes_witness :
    (create_or_update_autonomous_data_warehouse worldC8 createSchemaC8 []
        paramsC8).2.filter Call.isMutating =
      [Call.create (copy_details createSchemaC8 paramsC8)] ∧
    (∀ a v, (a, v) ∈ sentAttrs (copy_details createSchemaC8 paramsC8) ↔
      a ∈ createSchemaC8 ∧ ParamMap.get paramsC8 a = some v) :=
  C8_create_sends_input_attributes worldC8 createSchemaC8 [] paramsC8 (by rfl)

/-- C7: for desired state Present with an existing identifier, exactly one
Update request is issued, whose payload contains only the update-schema
attributes explicitly supplied by the caller; attributes left unset never
appear in the payload. -/
theorem C7_update_partial_payload (w : World) (cam uam : List String)
    (p : ParamMap) (og : Option Snapshot)
    (hid : pyTruthy (ParamMap.get p "autonomous_data_warehouse_id") = true)
    (hget : w.getOutcome = .ok og) :
    (create_or_update_autonomous_data_warehouse w cam uam p).2.filter
        Call.isMutating =
      [Call.update (ParamMap.get p "autonomous_data_warehouse_id")
        (explicitPayload uam p)] ∧
    (∀ a v, (a, v) ∈ explicitPayload uam p →
      a ∈ uam ∧ ParamMap.get p a = some v) ∧
    (∀ a, ParamMap.get p a = none → ∀ v, (a, v) ∉ explicitPayload uam p) := by
  refine ⟨?_, ?_, ?_⟩
  · rcases hm : w.mutateOutcome with f | u
    · simp [create_or_update_autonomous_data_warehouse, hid,
        update_autonomous_data_warehouse, check_and_update_resource, hget,
        execute_function_and_wait, hm, Call.isMutating]
    · rcases hw : w.waitOutcome with f | snap
      · simp [create_or_update_autonomous_data_warehouse, hid,
          update_autonomous_data_warehouse, check_and_update_resource, hget,
          execute_function_and_wait, hm, hw, Call.isMutating]
      · simp only [create_or_update_autonomous_data_warehouse, hid,
          update_autonomous_data_warehouse, check_and_update_resource, hget,
          execute_function_and_wait, hm, hw, if_true]
        split <;> simp [Call.isMutating]
  · intro a v hv
    simp only [explicitPayload, List.mem_filterMap, Option.map_eq_some'] at hv
    obtain ⟨a2, ha2, v2, hv2, hav⟩ := hv
    injection hav with h1 h2
    subst h1
    subst h2
    exact ⟨ha2, hv2⟩
  · intro a hnone v hv
    simp only [explicitPayload, List.mem_filterMap, Option.map_eq_some'] at hv
    obtain ⟨a2, ha2, v2, hv2, hav⟩ := hv
    injection hav with h1 h2
    subst h1
    rw [hnone] at hv2
    exact Option.noConfusion hv2

def worldC7 : World :=
  { getOutcome := .ok (some snapAvailable), mutateOutcome := .ok (),
    waitOutcome := .ok snapAvailable, defaultWaitStates := ["AVAILABLE"] }

def paramsC7 : ParamMap :=
  [("state", "present"), ("autonomous_data_warehouse_id", "ocid1.adw.u"),
   ("cpu_core_count", "4")]

def updateSchemaC7 : List String :=
  ["admin_password", "cpu_core_count", "data_storage_size_in_tbs",
   "db_name", "display_name", "license_model"]

/-- Witness for C7 at a concrete input: only the supplied cpu_core_count
appears in the update payload. -/
theorem C7_update_partial_payload_witness :
    (create_or_update_autonomous_data_warehouse worldC7 [] updateSchemaC7
        paramsC7).2.filter Call.isMutating =
      [Call.update (ParamMap.get paramsC7 "autonomous_data_warehouse_id")
        (explicitPayload updateSchemaC7 paramsC7)] ∧
    (∀ a v, (a, v) ∈ explicitPayload updateSchemaC7 paramsC7 →
      a ∈ updateSchemaC7 ∧ ParamMap.get paramsC7 a = some v) ∧
    (∀ a, ParamMap.get paramsC7 a = none → ∀ v,
      (a, v) ∉ explicitPayload updateSchemaC7 paramsC7) :=
  C7_update_partial_payload worldC7 [] updateSchemaC7 paramsC7
    (some snapAvailable) (by rfl) (by rfl)

/-! ## Fault propagation -/

/-- A collaborator fault encountered on the start/stop path surfaces as
the run's error with its message intact. -/
theorem fault_surfaces_start_or_stop (w : World) (p : ParamMap)
    (hst : ParamMap.get p "state" = some "start" ∨
           ParamMap.get p "state" = some "stop")
    (f : Err) (m : String) (hf : collabFaultMessage f = some m)
    (hinj :
      (w.getOutcome = .error f ∧
        (start_or_stop_autonomous_data_warehouse w p).2.any Call.isGet = true) ∨
      (w.mutateOutcome = .error f ∧
        (start_or_stop_autonomous_data_warehouse w p).2.any Call.isMutating
          = true) ∨
      (w.waitOutcome = .error f ∧
        (start_or_stop_autonomous_data_warehouse w p).2.any Call.isWait
          = true)) :
    ∃ e, (start_or_stop_autonomous_data_warehouse w p).1 = .error e ∧
      containsStr (Err.message e) m := by
  have hfm : Err.message f = m := by
    cases f <;> simp_all [collabFaultMessage, Err.message]
  have hself : containsStr (Err.message f) m := by
    rw [hfm]
    exact containsStr_refl m
  rcases hg : w.getOutcome with fg | og
  · simp_all [start_or_stop_autonomous_data_warehouse, get_existing_resource,
      Call.isMutating, Call.isWait, Call.isGet]
  · rcases og with _ | adw
    · rcases hpid : ParamMap.get p "autonomous_data_warehouse_id" with _ | s <;>
        simp_all [start_or_stop_autonomous_data_warehouse, get_existing_resource,
          Call.isMutating, Call.isWait, Call.isGet]
    · rcases hst with hst | hst
      · by_cases hidem :
          adw.lifecycle_state ∈ (["AVAILABLE", "STARTING"] : List String)
        · simp_all [start_or_stop_autonomous_data_warehouse,
            get_existing_resource, perform_start_or_stop, Call.isMutating,
            Call.isWait, Call.isGet]
        · rcases hm2 : w.mutateOutcome with fm | um
          · simp_all [start_or_stop_autonomous_data_warehouse,
              get_existing_resource, perform_start_or_stop,
              execute_function_and_wait, Call.isMutating, Call.isWait,
              Call.isGet]
          · rcases hw2 : w.waitOutcome with fw | snap
            · simp_all [start_or_stop_autonomous_data_warehouse,
                get_existing_resource, perform_start_or_stop,
                execute_function_and_wait, Call.isMutating, Call.isWait,
                Call.isGet]
            · by_cases hws : snap.lifecycle_state ∈ (["AVAILABLE"] : List String) <;>
                simp_all [start_or_stop_autonomous_data_warehouse,
                  get_existing_resource, perform_start_or_stop,
                  execute_function_and_wait, Call.isMutating, Call.isWait,
                  Call.isGet]
      · by_cases hidem :
          adw.lifecycle_state ∈ (["STOPPED", "STOPPING"] : List String)
        · simp_all [start_or_stop_autonomous_data_warehouse,
            get_existing_resource, perform_start_or_stop, Call.isMutating,
            Call.isWait, Call.isGet]
        · rcases hm2 : w.mutateOutcome with fm | um
          · simp_all [start_or_stop_autonomous_data_warehouse,
              get_existing_resource, perform_start_or_stop,
              execute_function_and_wait, Call.isMutating, Call.isWait,
              Call.isGet]
          · rcases hw2 : w.waitOutcome with fw | snap
            · simp_all [start_or_stop_autonomous_data_warehouse,
                get_existing_resource, perform_start_or_stop,
                execute_function_and_wait, Call.isMutating, Call.isWait,
                Call.isGet]
            · by_cases hws : snap.lifecycle_state ∈ (["STOPPED"] : List String) <;>
                simp_all [start_or_stop_autonomous_data_warehouse,
                  get_existing_resource, perform_start_or_stop,
                  execute_function_and_wait, Call.isMutating, Call.isWait,
                  Call.isGet]

/-- A collaborator fault encountered on the delete path surfaces as the
run's error with its message intact. -/
theorem fault_surfaces_absent (w : World) (p : ParamMap)
    (f : Err) (m : String) (hf : collabFaultMessage f = some m)
    (hinj :
      (w.getOutcome = .error f ∧
        (delete_autonomous_data_warehouse w p).2.any Call.isGet = true) ∨
      (w.mutateOutcome = .error f ∧
        (delete_autonomous_data_warehouse w p).2.any Call.isMutating = true) ∨
      (w.waitOutcome = .error f ∧
        (delete_autonomous_data_warehouse w p).2.any Call.isWait = true)) :
    ∃ e, (delete_autonomous_data_warehouse w p).1 = .error e ∧
      containsStr (Err.message e) m := by
  have hfm : Err.message f = m := by
    cases f <;> simp_all [collabFaultMessage, Err.message]
  have hself : containsStr (Err.message f) m := by
    rw [hfm]
    exact containsStr_refl m
  rcases hpid : ParamMap.get p "autonomous_data_warehouse_id" with _ | s
  · simp_all [delete_autonomous_data_warehouse, delete_and_wait]
  · rcases hg : w.getOutcome with fg | og
    · simp_all [delete_autonomous_data_warehouse, delete_and_wait,
        Call.isMutating, Call.isWait, Call.isGet]
    · rcases hm2 : w.mutateOutcome with fm | um
      · simp_all [delete_autonomous_data_warehouse, delete_and_wait,
          execute_function_and_wait, Call.isMutating, Call.isWait, Call.isGet]
      · rcases hw2 : w.waitOutcome with fw | snap
        · simp_all [delete_autonomous_data_warehouse, delete_and_wait,
            execute_function_and_wait, Call.isMutating, Call.isWait, Call.isGet]
        · by_cases hws : snap.lifecycle_state ∈ w.defaultWaitStates <;>
            simp_all [delete_autonomous_data_warehouse, delete_and_wait,
              execute_function_and_wait, Call.isMutating, Call.isWait,
              Call.isGet]

/-- A collaborator fault encountered on the restore path surfaces as the
run's error with its message intact. -/
theorem fault_surfaces_restore (w : World) (p : ParamMap)
    (f : Err) (m : String) (hf : collabFaultMessage f = some m)
    (hinj :
      (w.getOutcome = .error f ∧
        (restore_autonomous_data_warehouse w p).2.any Call.isGet = true) ∨
      (w.mutateOutcome = .error f ∧
        (restore_autonomous_data_warehouse w p).2.any Call.isMutating = true) ∨
      (w.waitOutcome = .error f ∧
        (restore_autonomous_data_warehouse w p).2.any Call.isWait = true)) :
    ∃ e, (restore_autonomous_data_warehouse w p).1 = .error e ∧
      containsStr (Err.message e) m := by
  have hfm : Err.message f = m := by
    cases f <;> simp_all [collabFaultMessage, Err.message]
  have hself : containsStr (Err.message f) m := by
    rw [hfm]
    exact containsStr_refl m
  rcases hm2 : w.mutateOutcome with fm | um
  · simp_all [restore_autonomous_data_warehouse, execute_function_and_wait,
      Call.isMutating, Call.isWait, Call.isGet]
  · rcases hw2 : w.waitOutcome with fw | snap
    · simp_all [restore_autonomous_data_warehouse, execute_function_and_wait,
        Call.isMutating, Call.isWait, Call.isGet]
    · by_cases hws :
        snap.lifecycle_state ∈ (["AVAILABLE", "FAILED"] : List String) <;>
        simp_all [restore_autonomous_data_warehouse, execute_function_and_wait,
          Call.isMutating, Call.isWait, Call.isGet]

/-- A collaborator fault encountered on the create-or-update path surfaces
as the run's error with its message intact (here via `fail_json`, which
keeps the fault's own message). -/
theorem fault_surfaces_present (w : World) (cam uam : List String)
    (p : ParamMap)
    (f : Err) (m : String) (hf : collabFaultMessage f = some m)
    (hinj :
      (w.getOutcome = .error f ∧
        (create_or_update_autonomous_data_warehouse w cam uam p).2.any
          Call.isGet = true) ∨
      (w.mutateOutcome = .error f ∧
        (create_or_update_autonomous_data_warehouse w cam uam p).2.any
          Call.isMutating = true) ∨
      (w.waitOutcome = .error f ∧
        (create_or_update_autonomous_data_warehouse w cam uam p).2.any
          Call.isWait = true)) :
    ∃ e, (create_or_update_autonomous_data_warehouse w cam uam p).1 =
        .error e ∧
      containsStr (Err.message e) m := by
  have hwrap : wrapPresentErrors (Except.error f) =
      Except.error (Err.failJson m) := by
    cases f <;> simp_all [collabFaultMessage, wrapPresentErrors]
  have hfj : containsStr (Err.message (Err.failJson m)) m := containsStr_refl m
  by_cases hidt : pyTruthy (ParamMap.get p "autonomous_data_warehouse_id") = true
  · rcases hg : w.getOutcome with fg | og
    · simp_all [create_or_update_autonomous_data_warehouse,
        update_autonomous_data_warehouse, check_and_update_resource,
        Call.isMutating, Call.isWait, Call.isGet]
    · rcases hm2 : w.mutateOutcome with fm | um
      · simp_all [create_or_update_autonomous_data_warehouse,
          update_autonomous_data_warehouse, check_and_update_resource,
          execute_function_and_wait, Call.isMutating, Call.isWait, Call.isGet]
      · rcases hw2 : w.waitOutcome with fw | snap
        · simp_all [create_or_update_autonomous_data_warehouse,
            update_autonomous_data_warehouse, check_and_update_resource,
            execute_function_and_wait, Call.isMutating, Call.isWait,
            Call.isGet]
        · by_cases hws : snap.lifecycle_state ∈ w.defaultWaitStates <;>
            simp_all [create_or_update_autonomous_data_warehouse,
              update_autonomous_data_warehouse, check_and_update_resource,
              execute_function_and_wait, wrapPresentErrors, Call.isMutating,
              Call.isWait, Call.isGet]
  · rcases hm2 : w.mutateOutcome with fm | um
    · simp_all [create_or_update_autonomous_data_warehouse,
        check_and_create_resource, create_autonomous_data_warehouse,
        create_and_wait, execute_function_and_wait, Call.isMutating,
        Call.isWait, Call.isGet]
    · rcases hw2 : w.waitOutcome with fw | snap
      · simp_all [create_or_update_autonomous_data_warehouse,
          check_and_create_resource, create_autonomous_data_warehouse,
          create_and_wait, execute_function_and_wait, Call.isMutating,
          Call.isWait, Call.isGet]
      · by_cases hws : snap.lifecycle_state ∈ w.defaultWaitStates <;>
          simp_all [create_or_update_autonomous_data_warehouse,
            check_and_create_resource, create_autonomous_data_warehouse,
            create_and_wait, execute_function_and_wait, wrapPresentErrors,
            Call.isMutating, Call.isWait, Call.isGet]

/-- C5: for every desired state, any remote service fault or
transport/client fault raised by a collaborator call that the run actually
issues (the call appears in the trace) aborts the reconciliation and is
surfaced to the caller as an error whose message contains the fault's own
message. -/
theorem C5_fault_propagation (w : World) (cam uam : List String)
    (p : ParamMap) (st : String)
    (hst : ParamMap.get p "state" = some st)
    (hmem : st ∈ (["present", "absent", "restore", "start", "stop"] : List String))
    (f : Err) (m : String) (hf : collabFaultMessage f = some m)
    (hinj :
      (w.getOutcome = .error f ∧
        (oci_module_run w cam uam p).2.any Call.isGet = true) ∨
      (w.mutateOutcome = .error f ∧
        (oci_module_run w cam uam p).2.any Call.isMutating = true) ∨
      (w.waitOutcome = .error f ∧
        (oci_module_run w cam uam p).2.any Call.isWait = true)) :
    ∃ e, (oci_module_run w cam uam p).1 = .error e ∧
      containsStr (Err.message e) m := by
  simp only [List.mem_cons, List.not_mem_nil, or_false] at hmem
  rcases hmem with rfl | rfl | rfl | rfl | rfl
  · have hrun : oci_module_run w cam uam p =
        create_or_update_autonomous_data_warehouse w cam uam p := by
      simp [oci_module_run, hst]
    rw [hrun] at hinj ⊢
    exact fault_surfaces_present w cam uam p f m hf hinj
  · have hrun : oci_module_run w cam uam p =
        delete_autonomous_data_warehouse w p := by
      simp [oci_module_run, hst]
    rw [hrun] at hinj ⊢
    exact fault_surfaces_absent w p f m hf hinj
  · have hrun : oci_module_run w cam uam p =
        restore_autonomous_data_warehouse w p := by
      simp [oci_module_run, hst]
    rw [hrun] at hinj ⊢
    exact fault_surfaces_restore w p f m hf hinj
  · have hrun : oci_module_run w cam uam p =
        start_or_stop_autonomous_data_warehouse w p := by
      simp [oci_module_run, hst]
    rw [hrun] at hinj ⊢
    exact fault_surfaces_start_or_stop w p (Or.inl hst) f m hf hinj
  · have hrun : oci_module_run w cam uam p =
        start_or_stop_autonomous_data_warehouse w p := by
      simp [oci_module_run, hst]
    rw [hrun] at hinj ⊢
    exact fault_surfaces_start_or_stop w p (Or.inr hst) f m hf hinj

def worldC5 : World :=
  { getOutcome := .ok (some snapC6After),
    mutateOutcome := .error (.serviceError "quota exceeded"),
    waitOutcome := .ok snapC6After, defaultWaitStates := [] }

/-- Witness for C5 at a concrete input: a service fault on the restore
call surfaces with its message intact. -/
theorem C5_fault_propagation_witness :
    ∃ e, (oci_module_run worldC5 [] [] paramsC6).1 = .error e ∧
      containsStr (Err.message e) "quota exceeded" :=
  C5_fault_propagation worldC5 [] [] paramsC6 "restore" (by rfl) (by decide)
    (.serviceError "quota exceeded") "quota exceeded" (by rfl)
    (Or.inr (Or.inl ⟨by rfl, by rfl⟩))

end OciAdw
